import Mathlib

/-!
Verification of the audit-logging signal handlers of the repository
(`apps/audits/signal_handlers.py`), via a shallow embedding: each Python
handler becomes a Lean function from its inputs (including the ambient
request context, passed explicitly) to the record(s) it writes.
-/

namespace Audits

/-- Action enum (`audits.const.ActionChoices`): create / update / delete. -/
inductive ActionChoices
  | create
  | update
  | delete
deriving DecidableEq, Repr

/-- The m2m_changed sub-signal actions (`common.const.signals`):
pre/post variants of add, remove, clear. -/
inductive M2MAction
  | pre_add
  | post_add
  | pre_remove
  | post_remove
  | pre_clear
  | post_clear
deriving DecidableEq, Repr

/-- `M2M_ACTION_MAPER` from the source: POST_ADD maps to create,
POST_REMOVE and POST_CLEAR map to delete; all other sub-signals are
absent from the dict (modelled as `none`). -/
def M2M_ACTION_MAPER : M2MAction → Option ActionChoices
  | M2MAction.post_add => some ActionChoices.create
  | M2MAction.post_remove => some ActionChoices.delete
  | M2MAction.post_clear => some ActionChoices.delete
  | _ => none

/-- `M2M_NEED_RECORD` from the source, as an association list keyed by the
through-model class name (Django names the auto-created through model
`<Owner>_<field>`). Each entry carries the category label, the add
template and the remove template (msgid text of the lazily translated
strings). -/
def M2M_NEED_RECORD : List (String × String × String × String) :=
  [ ("User_groups", "User and Group",
      "{User} JOINED {UserGroup}", "{User} LEFT {UserGroup}"),
    ("Asset_nodes", "Node and Asset",
      "{Node} ADD {Asset}", "{Node} REMOVE {Asset}"),
    ("AssetPermission_users", "User asset permissions",
      "{AssetPermission} ADD {User}", "{AssetPermission} REMOVE {User}"),
    ("AssetPermission_user_groups", "User group asset permissions",
      "{AssetPermission} ADD {UserGroup}", "{AssetPermission} REMOVE {UserGroup}"),
    ("AssetPermission_assets", "Asset permission",
      "{AssetPermission} ADD {Asset}", "{AssetPermission} REMOVE {Asset}"),
    ("AssetPermission_nodes", "Node permission",
      "{AssetPermission} ADD {Node}", "{AssetPermission} REMOVE {Node}") ]

/-- Dict lookup `M2M_NEED_RECORD[sender_name]` (with the
`sender_name in M2M_NEED_RECORD` membership test folded in as `Option`). -/
def lookupM2M (senderName : String) : Option (String × String × String) :=
  (M2M_NEED_RECORD.find? (fun e => e.1 == senderName)).map (fun e => e.2)

/-- An `OperateLog` row as built by `on_m2m_changed` (the fields it sets). -/
structure OperateLog where
  user : String
  action : ActionChoices
  resource_type : String
  resource : String
  remote_addr : String
  org_id : String
deriving DecidableEq, Repr

/-- The acting user from the ambient request (`current_request.user`):
its authentication flag and its display string `str(user)`. -/
structure RequestUser where
  is_authenticated : Bool
  display : String
deriving DecidableEq, Repr

/-- One named-placeholder substitution of Python `str.format`: replaces
every occurrence of the brace-wrapped key with the value. -/
def substKey (s key val : String) : String :=
  s.replace ("\x7b" ++ key ++ "\x7d") val

/-- `tmpl.format(**\x7bk1: v1, k2: v2\x7d)` for the two-placeholder
templates of `M2M_NEED_RECORD` (each template mentions each key once; the
keys are plain class names, distinct from each other). -/
def formatTmpl (tmpl k1 v1 k2 v2 : String) : String :=
  substKey (substKey tmpl k1 v1) k2 v2

/-- Python slicing `s[:n]` / `s[0:n]`: the first `n` code points. -/
def pyTruncate (s : String) (n : Nat) : String :=
  String.mk (s.data.take n)

lemma pyTruncate_length_le (s : String) (n : Nat) :
    (pyTruncate s n).length ≤ n := by
  simp only [pyTruncate, String.length, List.length_take]
  exact min_le_left _ _

/-- The inputs of one `m2m_changed` signal, as seen by the handler:
the through-model class name (`sender.__name__`), the sub-signal action,
whether the owning instance satisfies `isinstance(instance, Asset)`, the
owning instance's runtime class name and display string, the related
model class name, and the display strings of the related instances
resolved from `pk_set` (`model.objects.filter(pk__in=pk_set)`). -/
structure M2MEvent where
  senderName : String
  action : M2MAction
  instanceIsAsset : Bool
  instanceClassName : String
  instanceStr : String
  modelName : String
  relatedObjs : List String
deriving DecidableEq, Repr

/-- The owner-side substitution key chosen by the handler: the declared
base name `Asset` whenever `isinstance(instance, Asset)`, else the
runtime class name `instance.__class__.__name__`. -/
def instanceNameOf (isAsset : Bool) (className : String) : String :=
  if isAsset then "Asset" else className

/-- `on_m2m_changed` from the source, returning the list of `OperateLog`
rows it passes to its single `bulk_create` call ( `[]` when it returns
early without writing). Ambient collaborators are explicit parameters:
`currentUser` is `current_request.user` (or `none` when there is no
current request), `orgId` is `current_org.id`, `remoteAddr` is
`get_request_ip(current_request)`. -/
def on_m2m_changed (currentUser : Option RequestUser)
    (orgId remoteAddr : String) (e : M2MEvent) : List OperateLog :=
  match M2M_ACTION_MAPER e.action with
  | none => []
  | some action =>
    match currentUser with
    | none => []
    | some u =>
      if !u.is_authenticated then []
      else
        match lookupM2M e.senderName with
        | none => []
        | some (resource_type, tmplAdd, tmplRemove) =>
          let tmplOpt : Option String :=
            if action = ActionChoices.create then some tmplAdd
            else if action = ActionChoices.delete then some tmplRemove
            else none
          match tmplOpt with
          | none => []
          | some tmpl =>
            let iname := instanceNameOf e.instanceIsAsset e.instanceClassName
            e.relatedObjs.map (fun objStr =>
              { user := u.display
                action := action
                resource_type := resource_type
                resource :=
                  pyTruncate
                    (formatTmpl tmpl iname e.instanceStr e.modelName objStr) 128
                remote_addr := remoteAddr
                org_id := orgId })

/-- Python truthiness of the `update_fields` argument (`None` or a
frozenset of field names): `None` and the empty collection are falsy. -/
def pyTruthyFields : Option (List String) → Bool
  | none => false
  | some l => !l.isEmpty

/-- `on_object_created_or_update` from the source, reduced to its
decision: `none` means the handler returns without logging; `some a`
means it delegates to `create_operate_log` with action `a`.
The skip condition is literally
`instance._meta.object_name == "User" and update_fields and
"last_login" in update_fields`. -/
def on_object_created_or_update (objectName : String) (created : Bool)
    (updateFields : Option (List String)) : Option ActionChoices :=
  if objectName == "User" && pyTruthyFields updateFields
      && (updateFields.getD []).contains "last_login" then
    none
  else if created then some ActionChoices.create
  else some ActionChoices.update

/-- A `PasswordChangeLog` row (the fields `on_user_change_password` sets). -/
structure PasswordChangeLog where
  user : String
  change_by : String
  remote_addr : String
deriving DecidableEq, Repr

/-- The ambient request as `on_user_change_password` reads it: its user
and the result of `get_request_ip(current_request)`. -/
structure RequestCtx where
  user : RequestUser
  ip : String
deriving DecidableEq, Repr

/-- `on_user_change_password` from the source: the single
`PasswordChangeLog` row it creates. `subjectUser` is `str(user)`, the
display string of the user whose password changed. -/
def on_user_change_password (currentRequest : Option RequestCtx)
    (subjectUser : String) : PasswordChangeLog :=
  match currentRequest with
  | none =>
    { user := subjectUser, change_by := "System", remote_addr := "127.0.0.1" }
  | some req =>
    { user := subjectUser
      change_by :=
        if !req.user.is_authenticated then subjectUser else req.user.display
      remote_addr := req.ip }

/-- Python `x or default` for an optional string (falsy: `None` and `""`). -/
def pyOrStr (x : Option String) (default : String) : String :=
  match x with
  | none => default
  | some s => if s.isEmpty then default else s

/-- The request as `generate_data` reads it: the `HTTP_USER_AGENT` header
(`META.get` default `""` folded via `Option`), the result of
`get_request_ip(request)` (possibly falsy), whether
`isinstance(request, Request)` holds (DRF API-style request), the
`HTTP_X_JMS_LOGIN_TYPE` header, and the backend label from
`get_login_backend(request)`. -/
structure AuthRequest where
  httpUserAgent : Option String
  requestIp : Option String
  isDRFRequest : Bool
  jmsLoginTypeHeader : Option String
  backendLabel : String
deriving DecidableEq, Repr

/-- The dict built by `generate_data` (the datetime field, assigned at
write from the wall clock, is omitted). -/
structure GenData where
  username : String
  ip : String
  type : String
  user_agent : String
  backend : String
deriving DecidableEq, Repr

/-- `generate_data` from the source. Note the slice
`user_agent[0:254]`: the first 254 characters. -/
def generate_data (username : String) (req : AuthRequest)
    (login_type : Option String) : GenData :=
  let user_agent := req.httpUserAgent.getD ""
  let login_ip := pyOrStr req.requestIp "0.0.0.0"
  let lt1 : Option String :=
    if login_type.isNone && req.isDRFRequest then
      some (req.jmsLoginTypeHeader.getD "U")
    else login_type
  let lt2 : String := lt1.getD "W"
  { username := username
    ip := login_ip
    type := lt2
    user_agent := pyTruncate user_agent 254
    backend := req.backendLabel }

/-- A `UserLoginLog` row as assembled by the auth-failure handler. -/
structure LoginLog where
  username : String
  ip : String
  type : String
  user_agent : String
  backend : String
  reason : String
  status : Bool
deriving DecidableEq, Repr

/-- `on_user_auth_failed` from the source: builds `generate_data`'s dict
(no explicit login type) and updates it with `reason[:128]` and
`status=False`, then writes one login log. -/
def on_user_auth_failed (username : String) (req : AuthRequest)
    (reason : String) : LoginLog :=
  let d := generate_data username req none
  { username := d.username
    ip := d.ip
    type := d.type
    user_agent := d.user_agent
    backend := d.backend
    reason := pyTruncate reason 128
    status := false }

/-- The call with the `reason` parameter left at its default `""`. -/
def on_user_auth_failed_default (username : String) (req : AuthRequest) :
    LoginLog :=
  on_user_auth_failed username req ""

/-- Concrete sample inputs used by the closed witness statements. -/
def sampleUser : RequestUser :=
  { is_authenticated := true, display := "bob" }

/-- A user-joins-group relation event with one related instance. -/
def sampleEvent : M2MEvent :=
  { senderName := "User_groups"
    action := M2MAction.post_add
    instanceIsAsset := false
    instanceClassName := "User"
    instanceStr := "alice"
    modelName := "UserGroup"
    relatedObjs := ["admins"] }

/-- A relation event whose owner instance is an Asset subtype. -/
def sampleAssetEvent : M2MEvent :=
  { senderName := "Asset_nodes"
    action := M2MAction.post_add
    instanceIsAsset := true
    instanceClassName := "Host"
    instanceStr := "web01"
    modelName := "Node"
    relatedObjs := ["root-node"] }

lemma maper_create_or_delete {x : M2MAction} {a : ActionChoices}
    (h : M2M_ACTION_MAPER x = some a) :
    a = ActionChoices.create ∨ a = ActionChoices.delete := by
  cases x <;> simp [M2M_ACTION_MAPER] at h <;> simp [← h]

/-- Normal form of `on_m2m_changed` when all three gates pass. -/
lemma on_m2m_changed_eq {u : RequestUser} {e : M2MEvent} {a : ActionChoices}
    {rt tA tR : String} (orgId remoteAddr : String)
    (ha : M2M_ACTION_MAPER e.action = some a)
    (hauth : u.is_authenticated = true)
    (hr : lookupM2M e.senderName = some (rt, tA, tR)) :
    on_m2m_changed (some u) orgId remoteAddr e =
      e.relatedObjs.map (fun objStr =>
        { user := u.display
          action := a
          resource_type := rt
          resource :=
            pyTruncate
              (formatTmpl (if a = ActionChoices.create then tA else tR)
                (instanceNameOf e.instanceIsAsset e.instanceClassName)
                e.instanceStr e.modelName objStr) 128
          remote_addr := remoteAddr
          org_id := orgId }) := by
  unfold on_m2m_changed
  rw [ha, hr]
  rcases maper_create_or_delete ha with h | h <;> subst h <;> simp [hauth]

end Audits

namespace Audits

/-- C1: for a relation-changed event whose action maps through
`M2M_ACTION_MAPER` (add/remove/clear), with an authenticated actor and a
sender registered in `M2M_NEED_RECORD`, whose primary-key set resolves to
the N instances in `e.relatedObjs`, `on_m2m_changed` hands its single
`bulk_create` call exactly N `OperateLog` rows, all sharing the same
user, action, resource_type, org_id and remote_addr, so that rows can
differ only in their `resource` text. -/
theorem C1_m2m_batch (u : RequestUser) (orgId remoteAddr : String)
    (e : M2MEvent)
    (hact : (M2M_ACTION_MAPER e.action).isSome = true)
    (hauth : u.is_authenticated = true)
    (hreg : (lookupM2M e.senderName).isSome = true) :
    (on_m2m_changed (some u) orgId remoteAddr e).length =
      e.relatedObjs.length ∧
    (∀ l1 ∈ on_m2m_changed (some u) orgId remoteAddr e,
      ∀ l2 ∈ on_m2m_changed (some u) orgId remoteAddr e,
        l1.user = l2.user ∧ l1.action = l2.action ∧
        l1.resource_type = l2.resource_type ∧
        l1.org_id = l2.org_id ∧ l1.remote_addr = l2.remote_addr) ∧
    (∀ l ∈ on_m2m_changed (some u) orgId remoteAddr e,
      l.user = u.display ∧ l.org_id = orgId ∧ l.remote_addr = remoteAddr) := by
  obtain ⟨a, ha⟩ := Option.isSome_iff_exists.mp hact
  obtain ⟨⟨rt, tA, tR⟩, hr⟩ := Option.isSome_iff_exists.mp hreg
  rw [on_m2m_changed_eq orgId remoteAddr ha hauth hr]
  refine ⟨List.length_map _ _, ?_, ?_⟩
  · intro l1 h1 l2 h2
    obtain ⟨o1, -, rfl⟩ := List.mem_map.mp h1
    obtain ⟨o2, -, rfl⟩ := List.mem_map.mp h2
    exact ⟨rfl, rfl, rfl, rfl, rfl⟩
  · intro l hl
    obtain ⟨o, -, rfl⟩ := List.mem_map.mp hl
    exact ⟨rfl, rfl, rfl⟩

theorem C1_m2m_batch_witness :
    (on_m2m_changed (some sampleUser) "org1" "10.0.0.9" sampleEvent).length =
      sampleEvent.relatedObjs.length ∧
    (∀ l1 ∈ on_m2m_changed (some sampleUser) "org1" "10.0.0.9" sampleEvent,
      ∀ l2 ∈ on_m2m_changed (some sampleUser) "org1" "10.0.0.9" sampleEvent,
        l1.user = l2.user ∧ l1.action = l2.action ∧
        l1.resource_type = l2.resource_type ∧
        l1.org_id = l2.org_id ∧ l1.remote_addr = l2.remote_addr) ∧
    (∀ l ∈ on_m2m_changed (some sampleUser) "org1" "10.0.0.9" sampleEvent,
      l.user = sampleUser.display ∧ l.org_id = "org1" ∧
      l.remote_addr = "10.0.0.9") :=
  C1_m2m_batch sampleUser "org1" "10.0.0.9" sampleEvent
    (by decide) (by decide) (by decide)

/-- When `on_m2m_changed` writes anything, all three gates passed. -/
lemma m2m_nonempty_gates (cu : Option RequestUser) (orgId remoteAddr : String)
    (e : M2MEvent) (hne : on_m2m_changed cu orgId remoteAddr e ≠ []) :
    (M2M_ACTION_MAPER e.action).isSome = true ∧
    (∃ u, cu = some u ∧ u.is_authenticated = true) ∧
    (lookupM2M e.senderName).isSome = true := by
  unfold on_m2m_changed at hne
  cases hm : M2M_ACTION_MAPER e.action with
  | none => simp [hm] at hne
  | some a =>
    cases cu with
    | none => simp [hm] at hne
    | some u =>
      cases hu : u.is_authenticated with
      | false => simp [hm, hu] at hne
      | true =>
        cases hr : lookupM2M e.senderName with
        | none => simp [hm, hu, hr] at hne
        | some v => exact ⟨by simp [hm], ⟨u, rfl, hu⟩, by simp [hr]⟩

/-- C2: `on_m2m_changed` produces at least one record only when the
action is in `M2M_ACTION_MAPER`, the ambient actor exists and is
authenticated, and the sender is registered in `M2M_NEED_RECORD`; when
any of the three gates fails it produces zero records (returns `[]`,
no error). -/
theorem C2_m2m_gating (cu : Option RequestUser) (orgId remoteAddr : String)
    (e : M2MEvent) :
    (on_m2m_changed cu orgId remoteAddr e ≠ [] →
      (M2M_ACTION_MAPER e.action).isSome = true ∧
      (∃ u, cu = some u ∧ u.is_authenticated = true) ∧
      (lookupM2M e.senderName).isSome = true) ∧
    (¬((M2M_ACTION_MAPER e.action).isSome = true ∧
        (∃ u, cu = some u ∧ u.is_authenticated = true) ∧
        (lookupM2M e.senderName).isSome = true) →
      on_m2m_changed cu orgId remoteAddr e = []) := by
  refine ⟨m2m_nonempty_gates cu orgId remoteAddr e, ?_⟩
  intro hfail
  by_contra hne
  exact hfail (m2m_nonempty_gates cu orgId remoteAddr e hne)

theorem C2_m2m_gating_witness :
    on_m2m_changed none "org1" "10.0.0.9" sampleEvent = [] :=
  (C2_m2m_gating none "org1" "10.0.0.9" sampleEvent).2
    (by rintro ⟨-, ⟨u, hu, -⟩, -⟩; exact Option.noConfusion hu)

/-- C3 counterexample: a User save whose changed-field set is
`\x7blast_login, name\x7d` — i.e. `last_login` together with another
changed field — is still skipped by the handler (it returns without
logging), contradicting the claim that such a save is audited as an
update. -/
theorem C3_counterexample :
    on_object_created_or_update "User" false (some ["last_login", "name"])
      = none ∧
    "name" ∈ (["last_login", "name"] : List String) ∧
    ("name" : String) ≠ "last_login" := by decide

/-- C3 amended: the entity-saved handler skips if and only if the saved
entity is the User entity and the changed-field set is present and
contains `last_login` — regardless of what other fields changed;
otherwise it always logs, with action create when `created`, else
update. -/
theorem C3_amended (objectName : String) (created : Bool)
    (uf : Option (List String)) :
    (on_object_created_or_update objectName created uf = none ↔
      objectName = "User" ∧ ∃ l, uf = some l ∧ "last_login" ∈ l) ∧
    (on_object_created_or_update objectName created uf = none ∨
      on_object_created_or_update objectName created uf =
        some (if created then ActionChoices.create else ActionChoices.update)) := by
  constructor
  · cases uf with
    | none =>
      simp [on_object_created_or_update, pyTruthyFields]
      cases created <;> simp
    | some l =>
      by_cases hU : objectName = "User"
      · by_cases hm : "last_login" ∈ l
        · have hne : l ≠ [] := by rintro rfl; exact absurd hm (by simp)
          simp [on_object_created_or_update, pyTruthyFields, hU, hm,
            List.isEmpty_iff, hne]
        · simp [on_object_created_or_update, pyTruthyFields, hU, hm]
          cases created <;> simp
      · simp [on_object_created_or_update, pyTruthyFields, hU]
        cases created <;> simp
  · unfold on_object_created_or_update
    split_ifs <;> simp

theorem C3_amended_witness :
    (on_object_created_or_update "User" false (some ["last_login"]) = none ↔
      ("User" : String) = "User" ∧
      ∃ l, (some ["last_login"] : Option (List String)) = some l ∧
        "last_login" ∈ l) ∧
    (on_object_created_or_update "User" false (some ["last_login"]) = none ∨
      on_object_created_or_update "User" false (some ["last_login"]) =
        some (if false then ActionChoices.create else ActionChoices.update)) :=
  C3_amended "User" false (some ["last_login"])

/-- C4 counterexample: the static relation-change registry holds exactly
six distinct relation kinds (user↔group, asset↔node, and four
permission-object relations), not five as claimed. -/
theorem C4_counterexample :
    M2M_NEED_RECORD.length = 6 ∧
    (M2M_NEED_RECORD.map (fun e => e.1)).Nodup := by decide

/-- C4 amended: the registry contains exactly six distinct relation
kinds, and every relation-owner type outside these six (unregistered in
`M2M_NEED_RECORD`) produces no audit record. -/
theorem C4_amended (cu : Option RequestUser) (orgId remoteAddr : String)
    (e : M2MEvent) (h : lookupM2M e.senderName = none) :
    M2M_NEED_RECORD.length = 6 ∧
    (M2M_NEED_RECORD.map (fun e => e.1)).Nodup ∧
    on_m2m_changed cu orgId remoteAddr e = [] := by
  refine ⟨by decide, by decide, ?_⟩
  by_contra hne
  obtain ⟨-, -, hsome⟩ := m2m_nonempty_gates cu orgId remoteAddr e hne
  rw [h] at hsome
  exact Bool.noConfusion hsome

/-- An m2m event whose owner type is not in the registry. -/
def sampleUnregEvent : M2MEvent :=
  { senderName := "Ticket_assignees"
    action := M2MAction.post_add
    instanceIsAsset := false
    instanceClassName := "Ticket"
    instanceStr := "ticket-1"
    modelName := "User"
    relatedObjs := ["alice"] }

theorem C4_amended_witness :
    M2M_NEED_RECORD.length = 6 ∧
    (M2M_NEED_RECORD.map (fun e => e.1)).Nodup ∧
    on_m2m_changed (some sampleUser) "org1" "10.0.0.9" sampleUnregEvent = [] :=
  C4_amended (some sampleUser) "org1" "10.0.0.9" sampleUnregEvent (by decide)

/-- Every resource written by `on_m2m_changed` is the 128-truncation of
the event's own formatted template text: the template selected by the
event's action from the registry entry of the event's sender, with the
owner-side key chosen by `instanceNameOf`, applied to the owner's
display string and the display string of one of the event's related
instances. -/
lemma mem_m2m_resource_formatted {cu : Option RequestUser}
    {orgId remoteAddr : String} {e : M2MEvent} {l : OperateLog}
    (hl : l ∈ on_m2m_changed cu orgId remoteAddr e) :
    ∃ a rt tA tR obj,
      M2M_ACTION_MAPER e.action = some a ∧
      lookupM2M e.senderName = some (rt, tA, tR) ∧
      obj ∈ e.relatedObjs ∧
      l.resource = pyTruncate
        (formatTmpl (if a = ActionChoices.create then tA else tR)
          (instanceNameOf e.instanceIsAsset e.instanceClassName)
          e.instanceStr e.modelName obj) 128 := by
  unfold on_m2m_changed at hl
  cases hm : M2M_ACTION_MAPER e.action with
  | none => simp [hm] at hl
  | some a =>
    cases cu with
    | none => simp [hm] at hl
    | some u =>
      cases hu : u.is_authenticated with
      | false => simp [hm, hu] at hl
      | true =>
        cases hr : lookupM2M e.senderName with
        | none => simp [hm, hu, hr] at hl
        | some v =>
          obtain ⟨rt, tA, tR⟩ := v
          rcases maper_create_or_delete hm with h | h <;> subst h <;>
            simp [hm, hu, hr] at hl <;>
            obtain ⟨o, ho, rfl⟩ := hl
          · exact ⟨ActionChoices.create, rt, tA, tR, o, rfl, rfl, ho, by simp⟩
          · exact ⟨ActionChoices.delete, rt, tA, tR, o, rfl, rfl, ho, by simp⟩

/-- A 256-character request user agent. -/
def longUA : String := String.mk (List.replicate 256 'a')

/-- An auth request carrying `longUA` as its user agent. -/
def uaReq : AuthRequest :=
  { httpUserAgent := some longUA
    requestIp := some "9.9.9.9"
    isDRFRequest := false
    jmsLoginTypeHeader := none
    backendLabel := "Password" }

set_option maxRecDepth 40000 in
/-- C5 counterexample: the stored user agent is `user_agent[0:254]` —
the first 254 characters, not the first 255 as claimed. For a
256-character user agent the stored value has length 254 and differs
from the first 255 characters. -/
theorem C5_counterexample :
    longUA.length = 256 ∧
    (generate_data "dave" uaReq none).user_agent.length = 254 ∧
    (generate_data "dave" uaReq none).user_agent ≠ pyTruncate longUA 255 := by
  refine ⟨by decide, by decide, by decide⟩

/-- C5 amended: over-cap strings are silently truncated, never
rejected: every `on_m2m_changed` resource has length ≤ 128 and equals
the first-128-characters truncation of that event's formatted template
text (the registry template selected by the event's action, applied to
the owner's display string and one of the event's related instances);
the stored user agent equals the first 254 (not 255) characters of the
request user agent (hence length ≤ 254); the stored failure reason
equals the first 128 characters of the given reason (hence
length ≤ 128). -/
theorem C5_amended (cu : Option RequestUser) (orgId remoteAddr : String)
    (e : M2MEvent) (username : String) (req : AuthRequest)
    (lt : Option String) (reason : String) :
    (∀ l ∈ on_m2m_changed cu orgId remoteAddr e,
      l.resource.length ≤ 128 ∧
      ∃ a rt tA tR obj,
        M2M_ACTION_MAPER e.action = some a ∧
        lookupM2M e.senderName = some (rt, tA, tR) ∧
        obj ∈ e.relatedObjs ∧
        l.resource = pyTruncate
          (formatTmpl (if a = ActionChoices.create then tA else tR)
            (instanceNameOf e.instanceIsAsset e.instanceClassName)
            e.instanceStr e.modelName obj) 128) ∧
    ((generate_data username req lt).user_agent =
        pyTruncate (req.httpUserAgent.getD "") 254 ∧
      (generate_data username req lt).user_agent.length ≤ 254) ∧
    ((on_user_auth_failed username req reason).reason =
        pyTruncate reason 128 ∧
      (on_user_auth_failed username req reason).reason.length ≤ 128) := by
  refine ⟨?_, ⟨rfl, ?_⟩, ⟨rfl, ?_⟩⟩
  · intro l hl
    obtain ⟨a, rt, tA, tR, o, hm, hr, ho, hres⟩ :=
      mem_m2m_resource_formatted hl
    exact ⟨hres ▸ pyTruncate_length_le _ 128,
      a, rt, tA, tR, o, hm, hr, ho, hres⟩
  · exact pyTruncate_length_le _ _
  · exact pyTruncate_length_le _ _

theorem C5_amended_witness :
    (∀ l ∈ on_m2m_changed (some sampleUser) "org1" "10.0.0.9" sampleEvent,
      l.resource.length ≤ 128 ∧
      ∃ a rt tA tR obj,
        M2M_ACTION_MAPER sampleEvent.action = some a ∧
        lookupM2M sampleEvent.senderName = some (rt, tA, tR) ∧
        obj ∈ sampleEvent.relatedObjs ∧
        l.resource = pyTruncate
          (formatTmpl (if a = ActionChoices.create then tA else tR)
            (instanceNameOf sampleEvent.instanceIsAsset
              sampleEvent.instanceClassName)
            sampleEvent.instanceStr sampleEvent.modelName obj) 128) ∧
    ((generate_data "dave" uaReq none).user_agent =
        pyTruncate (uaReq.httpUserAgent.getD "") 254 ∧
      (generate_data "dave" uaReq none).user_agent.length ≤ 254) ∧
    ((on_user_auth_failed "dave" uaReq "bad password").reason =
        pyTruncate "bad password" 128 ∧
      (on_user_auth_failed "dave" uaReq "bad password").reason.length ≤ 128) :=
  C5_amended (some sampleUser) "org1" "10.0.0.9" sampleEvent "dave" uaReq
    none "bad password"

/-- C6: when the owning instance satisfies `isinstance(instance, Asset)`
— i.e. it is any Asset subtype — the owner-side substitution key is the
declared base name `"Asset"`, not the runtime class name, and the
handler output is therefore independent of the runtime class name. -/
theorem C6_asset_base_key (cu : Option RequestUser)
    (orgId remoteAddr : String) (e : M2MEvent)
    (h : e.instanceIsAsset = true) :
    instanceNameOf e.instanceIsAsset e.instanceClassName = "Asset" ∧
    on_m2m_changed cu orgId remoteAddr e =
      on_m2m_changed cu orgId remoteAddr
        { e with instanceClassName := "Asset" } := by
  obtain ⟨sn, act, isA, cls, istr, mn, objs⟩ := e
  simp only at h
  subst h
  exact ⟨rfl, rfl⟩

theorem C6_asset_base_key_witness :
    instanceNameOf sampleAssetEvent.instanceIsAsset
        sampleAssetEvent.instanceClassName = "Asset" ∧
    on_m2m_changed (some sampleUser) "org1" "10.0.0.9" sampleAssetEvent =
      on_m2m_changed (some sampleUser) "org1" "10.0.0.9"
        { sampleAssetEvent with instanceClassName := "Asset" } :=
  C6_asset_base_key (some sampleUser) "org1" "10.0.0.9" sampleAssetEvent rfl

/-- C7: every password-change event writes exactly one
`PasswordChangeLog` (the handler builds a single row), whose actor and
address are: with no ambient request, change_by = "System" and
remote_addr = "127.0.0.1"; with a request whose user is not
authenticated, change_by = the subject user's display string; with an
authenticated request user, change_by = that user's display string; in
the latter two cases remote_addr is the address extracted from the
request. -/
theorem C7_password_change (cr : Option RequestCtx) (subj : String) :
    (cr = none → on_user_change_password cr subj =
      { user := subj, change_by := "System", remote_addr := "127.0.0.1" }) ∧
    (∀ req, cr = some req → req.user.is_authenticated = false →
      on_user_change_password cr subj =
        { user := subj, change_by := subj, remote_addr := req.ip }) ∧
    (∀ req, cr = some req → req.user.is_authenticated = true →
      on_user_change_password cr subj =
        { user := subj, change_by := req.user.display,
          remote_addr := req.ip }) := by
  refine ⟨?_, ?_, ?_⟩
  · rintro rfl; rfl
  · rintro req rfl hr
    simp [on_user_change_password, hr]
  · rintro req rfl hr
    simp [on_user_change_password, hr]

theorem C7_password_change_witness :
    on_user_change_password none "carol" =
      { user := "carol", change_by := "System",
        remote_addr := "127.0.0.1" } :=
  (C7_password_change none "carol").1 rfl

/-- C8: every authentication-failure record has status = false and a
reason equal to the supplied reason truncated to its first 128
characters (hence length ≤ 128); with the reason parameter left at its
default, the stored reason is the empty string. -/
theorem C8_auth_failed (username : String) (req : AuthRequest)
    (reason : String) :
    (on_user_auth_failed username req reason).status = false ∧
    (on_user_auth_failed username req reason).reason =
      pyTruncate reason 128 ∧
    (on_user_auth_failed username req reason).reason.length ≤ 128 ∧
    (on_user_auth_failed_default username req).reason = "" := by
  refine ⟨rfl, rfl, pyTruncate_length_le reason 128, rfl⟩

/-- C9: with no explicit login type, an API-style request (a DRF
`Request` instance) records the login type read from the
`X-JMS-LOGIN-TYPE` header (its value when present, the read's default
otherwise), while a non-API request records the web default "W". -/
theorem C9_login_type_default (username : String) (req : AuthRequest) :
    (req.isDRFRequest = true →
      (generate_data username req none).type =
        req.jmsLoginTypeHeader.getD "U") ∧
    (req.isDRFRequest = false →
      (generate_data username req none).type = "W") := by
  constructor <;> intro h <;> simp [generate_data, h]

theorem C9_login_type_default_witness :
    (generate_data "dave" uaReq none).type = "W" :=
  (C9_login_type_default "dave" uaReq).2 rfl

/-- An API-style request whose login-type header carries the value "U". -/
def headerUReq : AuthRequest :=
  { httpUserAgent := none
    requestIp := none
    isDRFRequest := true
    jmsLoginTypeHeader := some "U"
    backendLabel := "" }

/-- C10 counterexample: the value "U" is also produced by another input
shape — an API-style request whose `X-JMS-LOGIN-TYPE` header is present
and itself carries "U" records login type "U", so "U" is not produced
exclusively by the header-absent shape. -/
theorem C10_counterexample :
    headerUReq.jmsLoginTypeHeader = some "U" ∧
    (generate_data "eve" headerUReq none).type = "U" := by decide

/-- C10 amended: with no explicit login type, an API-style request with
the `X-JMS-LOGIN-TYPE` header absent records the literal "U", a value
distinct from the web default "W"; among no-explicit-type events, "U"
is recorded only for API-style requests, and only when the header is
absent or itself carries "U". -/
theorem C10_amended (username : String) (req : AuthRequest) :
    (req.isDRFRequest = true → req.jmsLoginTypeHeader = none →
      (generate_data username req none).type = "U") ∧
    ("U" : String) ≠ "W" ∧
    ((generate_data username req none).type = "U" →
      req.isDRFRequest = true ∧
      (req.jmsLoginTypeHeader = none ∨
        req.jmsLoginTypeHeader = some "U")) := by
  refine ⟨?_, by decide, ?_⟩
  · intro hapi hh
    simp [generate_data, hapi, hh]
  · intro ht
    cases hd : req.isDRFRequest with
    | false =>
      simp [generate_data, hd] at ht
    | true =>
      refine ⟨rfl, ?_⟩
      cases hh : req.jmsLoginTypeHeader with
      | none => exact Or.inl rfl
      | some v =>
        simp [generate_data, hd, hh] at ht
        exact Or.inr (by rw [ht])

theorem C10_amended_witness :
    (generate_data "eve" { headerUReq with jmsLoginTypeHeader := none }
      none).type = "U" :=
  (C10_amended "eve" { headerUReq with jmsLoginTypeHeader := none }).1
    rfl rfl

end Audits
